import Mathlib

/-!
Shallow embedding of `src/src/replicon_handler.py` (class `RepliconHandler`):
the transport operations `post_request` / `get_request`, the backoff helper
`till_next_hour`, the retry state machine `connection_handler`, the batch
dispatcher `threaded_handler`, and the credential-mode part of `__init__`.

Python values that matter to the code are modelled explicitly: JSON bodies
as an inductive `JValue` (with Python truthiness), exceptions as a class
name plus message, and the sequence of outcomes of successive HTTP calls as
an explicit oracle list, so that the recursive retry loop becomes structural
recursion on the oracle.
-/

namespace RepliconHandler

/-- A parsed JSON value as Python sees it (`None`, bool, int, str, dict, list).
Used for request results; `jnull` stands for Python `None`. -/
inductive JValue where
  | jnull : JValue
  | jbool : Bool → JValue
  | jint : Int → JValue
  | jstr : String → JValue
  | jobj : List (String × JValue) → JValue
  | jarr : List JValue → JValue

/-- Python truthiness of a `JValue`: `None`, `False`, `0`, `''`, `{}`, `[]`
are falsy, everything else truthy. -/
def pytruthyJ : JValue → Bool
  | .jnull => false
  | .jbool b => b
  | .jint n => n != 0
  | .jstr s => !s.isEmpty
  | .jobj fields => !fields.isEmpty
  | .jarr elems => !elems.isEmpty

/-- Python `dict.get(key)` on a parsed JSON object: the bound value when the
key is present, `None` otherwise. -/
def dictGet (fields : List (String × JValue)) (key : String) : JValue :=
  match fields.lookup key with
  | some v => v
  | none => JValue.jnull

/-- Exception classes of the Python fragment the handler can see.
`connectionError` and `httpError` are `requests.ConnectionError` and
`requests.HTTPError`; `connectTimeout`, `proxyError` and `sslError` are the
`requests` subclasses of `ConnectionError`. -/
inductive ExcClass where
  | connectionError
  | httpError
  | connectTimeout
  | proxyError
  | sslError
  | readTimeout
  | timeoutExc
  | requestException
  | jsonDecodeError
  | keyError
  | valueError
  | typeError
  | otherExc : String → ExcClass
deriving Repr, DecidableEq

/-- A raised Python exception: its class and its message (`str(exc)`). -/
structure Exc where
  cls : ExcClass
  msg : String
deriving Repr, DecidableEq

/-- The proper base classes of each modelled exception class in the
`requests` hierarchy (transitively), leaf classes first. -/
def properAncestors : ExcClass → List ExcClass
  | .connectTimeout => [.connectionError, .timeoutExc, .requestException]
  | .proxyError => [.connectionError, .requestException]
  | .sslError => [.connectionError, .requestException]
  | .readTimeout => [.timeoutExc, .requestException]
  | .connectionError => [.requestException]
  | .httpError => [.requestException]
  | .timeoutExc => [.requestException]
  | .jsonDecodeError => [.requestException]
  | _ => []

/-- `c` is a proper subclass of `p` in the modelled Python hierarchy. -/
def isProperSubclass (c p : ExcClass) : Bool :=
  (properAncestors c).contains p

/-- A `requests` response object as the transport code reads it:
`status_code`, the `x-execution-correlation-id` header (absent means the
header lookup raises `KeyError`), and the parsed JSON body (`none` means
`.json()` raises). Claims concern JSON-object bodies, so the parsed body is
a field list. -/
structure HttpResponse where
  status_code : Nat
  correlation_id : Option String
  json_body : Option (List (String × JValue))

/-- What one call of `requests.post` / `requests.get` produced: a response
object, or a raised exception. -/
inductive WireOutcome where
  | resp : HttpResponse → WireOutcome
  | exc : Exc → WireOutcome

/-- `post_request(connector, headers, payload, auth)`: one POST call. On
status 429 it short-circuits with the fixed limit message; otherwise it
reads the correlation-id header (raising `KeyError` when absent), parses
the body (raising on parse failure), and returns the `error` field's value
when that value is truthy, else the whole parsed body. A raised exception
from `requests.post` or from these steps is the `Except.error` case. -/
def post_request : WireOutcome → Except Exc (Nat × JValue)
  | .exc e => .error e
  | .resp r =>
    if r.status_code = 429 then
      .ok (r.status_code, .jstr "API Calls Limit Reached.")
    else
      match r.correlation_id with
      | none => .error ⟨.keyError, "x-execution-correlation-id"⟩
      | some _ =>
        match r.json_body with
        | none => .error ⟨.jsonDecodeError, "Expecting value"⟩
        | some result =>
          let error_in_result := dictGet result "error"
          if pytruthyJ error_in_result then
            .ok (r.status_code, error_in_result)
          else
            .ok (r.status_code, .jobj result)

/-- `get_request(connector, headers, payload, auth)`: one GET call. Same
shape as `post_request`, except that the final (no-truthy-error) branch of
the source returns `status_code, error_in_result` rather than
`status_code, result`. -/
def get_request : WireOutcome → Except Exc (Nat × JValue)
  | .exc e => .error e
  | .resp r =>
    if r.status_code = 429 then
      .ok (r.status_code, .jstr "API Calls Limit Reached.")
    else
      match r.correlation_id with
      | none => .error ⟨.keyError, "x-execution-correlation-id"⟩
      | some _ =>
        match r.json_body with
        | none => .error ⟨.jsonDecodeError, "Expecting value"⟩
        | some result =>
          let error_in_result := dictGet result "error"
          if pytruthyJ error_in_result then
            .ok (r.status_code, error_in_result)
          else
            .ok (r.status_code, error_in_result)

/-- A wall-clock instant, as far as `till_next_hour` reads it. -/
structure Now where
  minute : Nat
  second : Nat
deriving Repr, DecidableEq

/-- `till_next_hour(now)`: `(60 * 60) - (now.minute * 60 + now.second)`. -/
def till_next_hour (now : Now) : Int :=
  (60 * 60 : Int) - ((now.minute : Int) * 60 + (now.second : Int))

/-- The retry-worthy exception classes of `connection_handler`:
`[requests.ConnectionError, requests.HTTPError]`. -/
def retry_worthy : List ExcClass :=
  [.connectionError, .httpError]

/-- The classification `exception_type in retry_worthy`: Python list
membership compares classes by equality (identity), not by subclassing. -/
def retryWorthy (c : ExcClass) : Bool :=
  retry_worthy.contains c

/-- The per-handler state `connection_handler` reads: tenant key,
credentials, token and HTTP method, as set by `__init__`. -/
structure Handler where
  company_key : String
  username : Option String
  password : Option String
  authentication_token : Option String
  method : String
deriving Repr, DecidableEq

/-- Python truthiness of an optional string (`None` or `str`). -/
def pytruthyS : Option String → Bool
  | none => false
  | some s => !s.isEmpty

/-- Python f-string rendering of an optional string. -/
def pyfstr : Option String → String
  | none => "None"
  | some s => s

/-- The per-call authentication computed at the top of `connection_handler`:
`None if self.authentication_token else (rf'{company_key}\{username}',
password)`. -/
def connection_authentication (h : Handler) : Option (String × Option String) :=
  if pytruthyS h.authentication_token then
    none
  else
    some (h.company_key ++ "\\" ++ pyfstr h.username, h.password)

/-- The transport operation `connection_handler` invokes:
`post_request` when `method == 'post'`, else `get_request`. -/
def transport_for (h : Handler) (w : WireOutcome) : Except Exc (Nat × JValue) :=
  if h.method = "post" then post_request w else get_request w

/-- How a `connection_handler` run ends: a returned value, a raised
exception, or no resolution within the supplied oracle (the unbounded
retry loop still running). -/
inductive CHOutcome where
  | value : JValue → CHOutcome
  | fault : Exc → CHOutcome
  | diverge : CHOutcome

/-- One `connection_handler` run: its outcome, the sleeps it performed in
order (seconds), and how many transport attempts it made. -/
structure CHRun where
  outcome : CHOutcome
  sleeps : List Int
  attempts : Nat

/-- `connection_handler(connector, payload)` over an explicit oracle: the
list of what each successive transport call produces, and the list of
wall-clock instants read at successive 429 backoffs. On a 429 result it
sleeps `till_next_hour` and recurses; on a retry-worthy exception class it
sleeps 20 seconds and recurses; any other exception is re-raised with the
same class and message (`raise exception_type(f'{exception}')`). A fault
raised by the recursive call in the 429 branch is caught by the enclosing
`except`, but such a fault never has a retry-worthy class (the inner run
already retried those), so the re-raise there preserves it unchanged. -/
def connection_handler (h : Handler) : List WireOutcome → List Now → CHRun
  | [], _ => ⟨.diverge, [], 0⟩
  | w :: rest, clocks =>
    match transport_for h w with
    | .ok (status_code, result) =>
      if status_code = 429 then
        match clocks with
        | [] => ⟨.diverge, [], 1⟩
        | now :: crest =>
          let r := connection_handler h rest crest
          ⟨r.outcome, till_next_hour now :: r.sleeps, r.attempts + 1⟩
      else
        ⟨.value result, [], 1⟩
    | .error e =>
      if retryWorthy e.cls then
        let r := connection_handler h rest clocks
        ⟨r.outcome, (20 : Int) :: r.sleeps, r.attempts + 1⟩
      else
        ⟨.fault ⟨e.cls, e.msg⟩, [], 1⟩

/-- How a `threaded_handler` run ends: the collected results list, a fault
re-raised at the result-collection loop, or no resolution (some unit's
retry loop still running). -/
inductive BatchResult where
  | ok : List JValue → BatchResult
  | raised : Exc → BatchResult
  | diverge : BatchResult

/-- `threaded_handler(connector, payloads, workers)` over an explicit
per-payload oracle. The argument list is the batch in completion order (the
order `as_completed` yields finished units); for each completed unit the
loop calls `result.result()`, which re-raises that unit's fault if it had
one — the locally accumulated `results` list is then abandoned and the
exception propagates out of the method. -/
def threaded_handler {α : Type} (h : Handler)
    (oracleOf : α → List WireOutcome × List Now) :
    List α → BatchResult
  | [] => .ok []
  | p :: ps =>
    match (connection_handler h (oracleOf p).1 (oracleOf p).2).outcome with
    | .value v =>
      match threaded_handler h oracleOf ps with
      | .ok vs => .ok (v :: vs)
      | other => other
    | .fault e => .raised e
    | .diverge => .diverge

/-- Models the scheduling semantics of `ThreadPoolExecutor(max_workers=W)`
with `as_completed`: every submitted unit completes exactly once, so the
completion order is a permutation of the submission order; with a single
worker the units run sequentially in submission order, so the completion
order equals the submission order. -/
def validCompletion {α : Type} (workers : Nat) (submitted completed : List α) : Prop :=
  completed.Perm submitted ∧ (workers = 1 → completed = submitted)

/-- The keyword arguments `__init__` reads for tenant, credentials and
method (every essential key present; `none` is Python `None`). -/
structure InitKwargs where
  company_key : Option String
  username : Option String
  password : Option String
  authentication_token : Option String
  method : Option String

/-- The method-validation step of `__init__`:
`kwargs['method'] and kwargs['method'] in ['post', 'get']`. -/
def method_check (ck : String) (u p t m : Option String) : Except String Handler :=
  if pytruthyS m && (m == some "post" || m == some "get") then
    .ok ⟨ck, u, p, t, pyfstr m⟩
  else
    .error "Method must be \x22post\x22 or \x22get\x22."

/-- The tenant and credential part of `__init__`: a truthy company key is
required; truthy username and password select the basic-credential mode
(token set to `None`); otherwise a truthy token selects the token mode
(username and password set to `None`); otherwise construction fails. Then
the method is validated. -/
def handler_init (k : InitKwargs) : Except String Handler :=
  if pytruthyS k.company_key then
    if pytruthyS k.username && pytruthyS k.password then
      method_check (pyfstr k.company_key) k.username k.password none k.method
    else if pytruthyS k.authentication_token then
      method_check (pyfstr k.company_key) none none k.authentication_token k.method
    else
      .error "Credentials or Token is mandatory."
  else
    .error "Company Key is required."

/-! Helper lemmas shared by the claim theorems. -/

/-- Both transport operations surface a raised exception unchanged. -/
lemma transport_for_exc (h : Handler) (e : Exc) :
    transport_for h (.exc e) = .error e := by
  simp [transport_for, post_request, get_request]

/-- Both transport operations short-circuit a 429 response. -/
lemma transport_for_429 (h : Handler) (r : HttpResponse)
    (h429 : r.status_code = 429) :
    transport_for h (.resp r) = .ok (429, .jstr "API Calls Limit Reached.") := by
  simp [transport_for, post_request, get_request, h429]

/-- A non-retry-worthy exception ends the run at once: one attempt, no
sleep, the fault re-raised with the same class and message. -/
lemma connection_handler_fatal (h : Handler) (e : Exc)
    (rest : List WireOutcome) (clocks : List Now)
    (hf : retryWorthy e.cls = false) :
    connection_handler h (.exc e :: rest) clocks =
      ⟨CHOutcome.fault ⟨e.cls, e.msg⟩, [], 1⟩ := by
  simp [connection_handler, transport_for_exc, hf]

/-- A sample handler configured with basic credentials and the post method. -/
def demoHandler : Handler :=
  ⟨"acme", some "user", some "pw", none, "post"⟩

/-- A sample successful response carrying one data field. -/
def demoResp : HttpResponse :=
  ⟨200, some "cid", some [("d", JValue.jint 1)]⟩

/-! Claim theorems. -/

/-- C7: for every wall-clock time with minute m ≤ 59 and second s ≤ 59, the
rate-limit backoff duration `till_next_hour` equals 3600 − (m×60 + s), the
number of seconds remaining until the top of the next clock hour (so adding
the seconds already elapsed in the hour gives exactly 3600, and the value is
positive and at most 3600). -/
theorem till_next_hour_formula (m s : Nat) (hm : m ≤ 59) (hs : s ≤ 59) :
    till_next_hour ⟨m, s⟩ = 3600 - ((m : Int) * 60 + (s : Int)) ∧
    ((m : Int) * 60 + (s : Int)) + till_next_hour ⟨m, s⟩ = 3600 ∧
    0 < till_next_hour ⟨m, s⟩ ∧ till_next_hour ⟨m, s⟩ ≤ 3600 := by
  simp only [till_next_hour]
  omega

/-- Witness for C7 at minute 30, second 15. -/
theorem till_next_hour_formula_witness :
    till_next_hour ⟨30, 15⟩ = 3600 - (((30 : Nat) : Int) * 60 + ((15 : Nat) : Int)) ∧
    (((30 : Nat) : Int) * 60 + ((15 : Nat) : Int)) + till_next_hour ⟨30, 15⟩ = 3600 ∧
    0 < till_next_hour ⟨30, 15⟩ ∧ till_next_hour ⟨30, 15⟩ ≤ 3600 :=
  till_next_hour_formula 30 15 (by decide) (by decide)

/-- C3: for every exception whose class is not in the retry-worthy set,
`connection_handler` makes exactly one transport attempt, performs no
sleep, and raises an exception of the same class with the same message. -/
theorem connection_handler_fatal_single_attempt (h : Handler) (e : Exc)
    (rest : List WireOutcome) (clocks : List Now)
    (hf : retryWorthy e.cls = false) :
    connection_handler h (.exc e :: rest) clocks =
      ⟨CHOutcome.fault ⟨e.cls, e.msg⟩, [], 1⟩ :=
  connection_handler_fatal h e rest clocks hf

/-- Witness for C3: a ValueError is re-raised at once. -/
theorem connection_handler_fatal_single_attempt_witness :
    connection_handler demoHandler [.exc ⟨.valueError, "bad payload"⟩] [] =
      ⟨CHOutcome.fault ⟨.valueError, "bad payload"⟩, [], 1⟩ :=
  connection_handler_fatal_single_attempt demoHandler ⟨.valueError, "bad payload"⟩
    [] [] (by decide)

/-- C6: for every transport oracle raising a retry-worthy fault on the
first call and succeeding (with a non-429 status) on the second,
`connection_handler` returns the success result with exactly one fixed
20-second sleep between the two attempts. -/
theorem connection_handler_retry_then_success (h : Handler) (e : Exc)
    (okw : WireOutcome) (rest : List WireOutcome) (clocks : List Now)
    (s : Nat) (v : JValue)
    (hr : retryWorthy e.cls = true)
    (hok : transport_for h okw = .ok (s, v)) (hs : s ≠ 429) :
    connection_handler h (.exc e :: okw :: rest) clocks =
      ⟨CHOutcome.value v, [20], 2⟩ := by
  simp [connection_handler, transport_for_exc, hr, hok, hs]

/-- Witness for C6: a ConnectionError then a 200 response. -/
theorem connection_handler_retry_then_success_witness :
    connection_handler demoHandler
      [.exc ⟨.connectionError, "reset"⟩, .resp demoResp] [] =
      ⟨CHOutcome.value (.jobj [("d", JValue.jint 1)]), [20], 2⟩ :=
  connection_handler_retry_then_success demoHandler ⟨.connectionError, "reset"⟩
    (.resp demoResp) [] [] 200 (.jobj [("d", JValue.jint 1)])
    (by decide) rfl (by decide)

/-- C9: retry classification tests the exception's exact class for
membership in [ConnectionError, HTTPError]; every exception whose class is
a proper subclass of one of these is not retried but re-raised to the
caller as fatal after a single attempt, with no sleep. -/
theorem connection_handler_subclass_fatal (c : ExcClass) (msg : String)
    (h : Handler) (rest : List WireOutcome) (clocks : List Now)
    (hsub : (isProperSubclass c .connectionError || isProperSubclass c .httpError) = true) :
    retryWorthy c = false ∧
    connection_handler h (.exc ⟨c, msg⟩ :: rest) clocks =
      ⟨CHOutcome.fault ⟨c, msg⟩, [], 1⟩ := by
  have hnr : retryWorthy c = false := by
    cases c <;> simp_all [isProperSubclass, properAncestors, retryWorthy, retry_worthy]
  exact ⟨hnr, connection_handler_fatal h ⟨c, msg⟩ rest clocks hnr⟩

/-- Witness for C9: a ConnectTimeout (proper subclass of ConnectionError)
is fatal. -/
theorem connection_handler_subclass_fatal_witness :
    retryWorthy .connectTimeout = false ∧
    connection_handler demoHandler [.exc ⟨.connectTimeout, "timed out"⟩] [] =
      ⟨CHOutcome.fault ⟨.connectTimeout, "timed out"⟩, [], 1⟩ :=
  connection_handler_subclass_fatal .connectTimeout "timed out" demoHandler
    [] [] (by decide)

/-- C2: for every oracle delivering some finite block of 429 responses and
then an attempt that resolves to a non-429 result, `connection_handler`
returns that first non-429 result (never a 429 one), sleeping one
`till_next_hour` backoff per 429 response; for a block of length k it makes
k + 1 transport attempts. -/
theorem connection_handler_429_block (h : Handler) (pre : List WireOutcome)
    (okw : WireOutcome) (rest : List WireOutcome) (clocks : List Now)
    (s : Nat) (v : JValue)
    (hpre : ∀ w ∈ pre, ∃ r : HttpResponse, w = .resp r ∧ r.status_code = 429)
    (hlen : pre.length ≤ clocks.length)
    (hok : transport_for h okw = .ok (s, v)) (hs : s ≠ 429) :
    connection_handler h (pre ++ okw :: rest) clocks =
      ⟨CHOutcome.value v, (clocks.take pre.length).map till_next_hour,
        pre.length + 1⟩ := by
  induction pre generalizing clocks with
  | nil =>
    simp [connection_handler, hok, hs]
  | cons w pre ih =>
    obtain ⟨r, rfl, h429⟩ := hpre w (List.mem_cons_self w pre)
    cases clocks with
    | nil => simp at hlen
    | cons now crest =>
      have hrec := ih crest (fun x hx => hpre x (List.mem_cons_of_mem _ hx))
        (by simpa using hlen)
      simp [connection_handler, transport_for_429 h r h429, hrec]

/-- Witness for C2 (the spec's k = 1 example): one 429 response then a 200
response; the handler returns the 200 result after exactly one backoff
sleep (1800 seconds when the 429 lands at minute 30, second 0). -/
theorem connection_handler_429_block_witness :
    connection_handler demoHandler
      [.resp ⟨429, none, none⟩, .resp demoResp] [⟨30, 0⟩] =
      ⟨CHOutcome.value (.jobj [("d", JValue.jint 1)]), [1800], 2⟩ := by
  have hrun := connection_handler_429_block demoHandler
    [.resp ⟨429, none, none⟩] (.resp demoResp) [] [⟨30, 0⟩] 200
    (.jobj [("d", JValue.jint 1)])
    (by
      intro w hw
      simp only [List.mem_singleton] at hw
      exact ⟨⟨429, none, none⟩, hw, rfl⟩)
    (by decide) rfl (by decide)
  simpa [till_next_hour] using hrun

/-- C1: the claim states that for responses whose parsed body has no error
field (status not 429) the transport operation returns the status code
paired with the parsed body itself. `post_request` does; `get_request`
returns the status code paired with `result.get('error')`, which is Python
`None` when the field is absent — not the parsed body. Evaluated at a
concrete 200 response with body containing only an "ok" field. -/
theorem get_request_drops_body_on_success :
    post_request (.resp ⟨200, some "cid", some [("ok", JValue.jint 1)]⟩) =
      .ok (200, JValue.jobj [("ok", JValue.jint 1)]) ∧
    get_request (.resp ⟨200, some "cid", some [("ok", JValue.jint 1)]⟩) =
      .ok (200, JValue.jnull) ∧
    JValue.jnull ≠ JValue.jobj [("ok", JValue.jint 1)] :=
  ⟨rfl, rfl, fun hc => JValue.noConfusion hc⟩

/-- C4 counterexample: a parsed body that contains an error field whose
value is falsy (the empty string). The claim says the transport operation
returns the field's value; `post_request` instead returns the whole parsed
body, because the source tests the field's truthiness, not its presence. -/
theorem post_request_falsy_error_counterexample :
    post_request (.resp ⟨200, some "cid", some [("error", JValue.jstr "")]⟩) =
      .ok (200, JValue.jobj [("error", JValue.jstr "")]) ∧
    JValue.jobj [("error", JValue.jstr "")] ≠ JValue.jstr "" :=
  ⟨rfl, fun hc => JValue.noConfusion hc⟩

/-- C4 (amended): for every response whose status is not 429, whose
correlation header is present, and whose parsed body carries an error field
with a truthy value, both transport operations return the real status code
paired with that field's value, and no fault is raised. -/
theorem transport_truthy_error_returned (r : HttpResponse)
    (result : List (String × JValue))
    (hs : r.status_code ≠ 429) (hc : r.correlation_id ≠ none)
    (hb : r.json_body = some result)
    (ht : pytruthyJ (dictGet result "error") = true) :
    post_request (.resp r) = .ok (r.status_code, dictGet result "error") ∧
    get_request (.resp r) = .ok (r.status_code, dictGet result "error") := by
  cases hcor : r.correlation_id with
  | none => exact absurd hcor hc
  | some cid => simp [post_request, get_request, hs, hcor, hb, ht]

/-- Witness for C4 at a 403 response whose body is an error message. -/
theorem transport_truthy_error_returned_witness :
    post_request (.resp ⟨403, some "cid", some [("error", JValue.jstr "denied")]⟩) =
      .ok (403, JValue.jstr "denied") ∧
    get_request (.resp ⟨403, some "cid", some [("error", JValue.jstr "denied")]⟩) =
      .ok (403, JValue.jstr "denied") := by
  have hrun := transport_truthy_error_returned
    ⟨403, some "cid", some [("error", JValue.jstr "denied")]⟩
    [("error", JValue.jstr "denied")]
    (by decide) (by simp) rfl rfl
  simpa [dictGet] using hrun

/-- When every unit of a list resolves to a value, the dispatcher collects
exactly those values in list order. -/
lemma threaded_handler_all_ok {α : Type} (h : Handler)
    (oracleOf : α → List WireOutcome × List Now) (f : α → JValue) :
    ∀ l : List α,
      (∀ p ∈ l,
        (connection_handler h (oracleOf p).1 (oracleOf p).2).outcome =
          CHOutcome.value (f p)) →
      threaded_handler h oracleOf l = .ok (l.map f)
  | [], _ => rfl
  | p :: ps, hl => by
    have hv := hl p (List.mem_cons_self p ps)
    have hrest := threaded_handler_all_ok h oracleOf f ps
      (fun q hq => hl q (List.mem_cons_of_mem _ hq))
    simp [threaded_handler, hv, hrest]

/-- C5: for every batch whose units all succeed and every worker count W,
the dispatcher returns exactly one result per payload — as many results as
payloads, forming a permutation of the per-payload results (no duplicates,
no omissions) — and for W = 1 the results appear in submission order. The
scheduling of the thread pool is abstracted by `validCompletion`. -/
theorem threaded_handler_results_complete {α : Type} (h : Handler)
    (oracleOf : α → List WireOutcome × List Now) (f : α → JValue)
    (payloads completed : List α) (W : Nat)
    (hok : ∀ p ∈ payloads,
      (connection_handler h (oracleOf p).1 (oracleOf p).2).outcome =
        CHOutcome.value (f p))
    (hsched : validCompletion W payloads completed) :
    threaded_handler h oracleOf completed = .ok (completed.map f) ∧
    (completed.map f).length = payloads.length ∧
    (completed.map f).Perm (payloads.map f) ∧
    (W = 1 → completed.map f = payloads.map f) := by
  obtain ⟨hperm, hone⟩ := hsched
  refine ⟨threaded_handler_all_ok h oracleOf f completed
    (fun p hp => hok p (hperm.subset hp)), ?_, hperm.map f, ?_⟩
  · simp [hperm.length_eq]
  · intro h1
    rw [hone h1]

/-- Per-payload oracle for the C5 witness: every unit gets one successful
200 response echoing its id. -/
def wOracle (n : Nat) : List WireOutcome × List Now :=
  ([.resp ⟨200, some "cid", some [("id", JValue.jint n)]⟩], [])

/-- The value each C5 witness unit resolves to. -/
def wResult (n : Nat) : JValue :=
  .jobj [("id", JValue.jint n)]

/-- Witness for C5: three payloads, one worker, all units succeed. -/
theorem threaded_handler_results_complete_witness :
    threaded_handler demoHandler wOracle [1, 2, 3] =
      .ok ([1, 2, 3].map wResult) ∧
    ([1, 2, 3].map wResult).length = ([1, 2, 3] : List Nat).length ∧
    ([1, 2, 3].map wResult).Perm ([1, 2, 3].map wResult) ∧
    (1 = 1 → ([1, 2, 3] : List Nat).map wResult = [1, 2, 3].map wResult) :=
  threaded_handler_results_complete demoHandler wOracle wResult
    [1, 2, 3] [1, 2, 3] 1
    (by intro p hp; fin_cases hp <;> rfl)
    ⟨List.Perm.refl _, fun _ => rfl⟩

/-- C10: if, in completion order, every unit before some failing unit
succeeded and that unit's `connection_handler` call raised a fatal fault,
the dispatcher raises that fault from its result-collection loop: the
already collected results are discarded, and nothing is returned. -/
theorem threaded_handler_fault_aborts {α : Type} (h : Handler)
    (oracleOf : α → List WireOutcome × List Now)
    (pre : List α) (p : α) (post : List α) (e : Exc)
    (hpre : ∀ q ∈ pre, ∃ v,
      (connection_handler h (oracleOf q).1 (oracleOf q).2).outcome =
        CHOutcome.value v)
    (hp : (connection_handler h (oracleOf p).1 (oracleOf p).2).outcome =
      CHOutcome.fault e) :
    threaded_handler h oracleOf (pre ++ p :: post) = .raised e := by
  induction pre with
  | nil => simp [threaded_handler, hp]
  | cons q pre ih =>
    obtain ⟨v, hv⟩ := hpre q (List.mem_cons_self q pre)
    have hrest := ih (fun x hx => hpre x (List.mem_cons_of_mem _ hx))
    simp [threaded_handler, hv, hrest]

/-- Per-payload oracle for the C10 witness: payload 0 raises a fatal
ValueError, every other payload gets one successful response. -/
def wOracleBad (n : Nat) : List WireOutcome × List Now :=
  if n = 0 then ([.exc ⟨.valueError, "boom"⟩], [])
  else ([.resp ⟨200, some "cid", some [("id", JValue.jint n)]⟩], [])

/-- Witness for C10: unit 1 succeeds, unit 0 faults, unit 2 never reaches
the collection loop; the collected result of unit 1 is discarded. -/
theorem threaded_handler_fault_aborts_witness :
    threaded_handler demoHandler wOracleBad [1, 0, 2] =
      .raised ⟨.valueError, "boom"⟩ :=
  threaded_handler_fault_aborts demoHandler wOracleBad [1] 0 [2]
    ⟨.valueError, "boom"⟩
    (by
      intro q hq
      simp only [List.mem_singleton] at hq
      subst hq
      exact ⟨.jobj [("id", JValue.jint 1)], rfl⟩)
    rfl

/-- A truthy optional string is some string. -/
lemma pytruthyS_some {o : Option String} (h1 : pytruthyS o = true) :
    ∃ s, o = some s := by
  cases o with
  | none => simp [pytruthyS] at h1
  | some s => exact ⟨s, rfl⟩

/-- C8: every successfully constructed handler is in exactly one credential
mode — basic credentials with no token, or a token with no credentials —
and the authentication `connection_handler` computes from it is `None` in
token mode, and otherwise the pair of the company key and username joined
with a backslash together with the password. -/
theorem handler_init_credential_modes (k : InitKwargs) (h : Handler)
    (hinit : handler_init k = .ok h) :
    (h.authentication_token = none ∧ h.username ≠ none ∧ h.password ≠ none ∧
      ∃ u, h.username = some u ∧
        connection_authentication h =
          some (h.company_key ++ "\\" ++ u, h.password)) ∨
    (h.authentication_token ≠ none ∧ h.username = none ∧ h.password = none ∧
      connection_authentication h = none) := by
  unfold handler_init method_check at hinit
  split at hinit
  · split at hinit
    · split at hinit
      · injection hinit with hrec
        subst hrec
        rename_i hcred _
        obtain ⟨hu, hp⟩ := Bool.and_eq_true_iff.mp hcred
        obtain ⟨u, hku⟩ := pytruthyS_some hu
        obtain ⟨pw, hkp⟩ := pytruthyS_some hp
        left
        refine ⟨rfl, by simp [hku], by simp [hkp], u, hku,
          by simp [connection_authentication, pytruthyS, pyfstr, hku]⟩
      · exact Except.noConfusion hinit
    · split at hinit
      · split at hinit
        · injection hinit with hrec
          subst hrec
          rename_i htok _
          obtain ⟨t, hkt⟩ := pytruthyS_some htok
          right
          refine ⟨by simp [hkt], rfl, rfl,
            by simp [connection_authentication, htok]⟩
        · exact Except.noConfusion hinit
      · exact Except.noConfusion hinit
  · exact Except.noConfusion hinit

/-- Witness for C8: a handler built with basic credentials. -/
theorem handler_init_credential_modes_witness :
    (demoHandler.authentication_token = none ∧ demoHandler.username ≠ none ∧
      demoHandler.password ≠ none ∧
      ∃ u, demoHandler.username = some u ∧
        connection_authentication demoHandler =
          some (demoHandler.company_key ++ "\\" ++ u, demoHandler.password)) ∨
    (demoHandler.authentication_token ≠ none ∧ demoHandler.username = none ∧
      demoHandler.password = none ∧
      connection_authentication demoHandler = none) :=
  handler_init_credential_modes
    ⟨some "acme", some "user", some "pw", none, some "post"⟩ demoHandler rfl

end RepliconHandler
